import Mathlib

/-!
The cloudkinds controller: provider resolution, reconcile outcome and startup registration.

A shallow embedding of `pkg/controller/cloudkinds/controller.go`.

* External collaborators (the API client, the JSON encoder, the HTTP client, the CRD
  registration and the watch machinery) are passed in as an environment of functions giving
  the outcome of each call.  The calls that the code performs are recorded, in order, in a
  trace of `Effect`s, so that "no POST is issued" is a statement about the trace.
* Lines printed on standard output (`fmt.Println`, `fmt.Printf`) are not part of the model.
* Go `string` and `[]byte` are `String`, Go `int` is `Int`, `time.Duration` is `Int`
  nanoseconds, a Go `error` is `Option GoError` (`none` is `nil`).
* The range loop of `Reconcile` takes the address of its iteration variable.  The source
  dates from 2018 and has no `go.mod` asking for Go 1.22 or later, so the iteration variable
  is ONE variable, reused by every iteration; `resolveProvider` models exactly that.
  `resolveProviderPerIteration` is the same loop read with one variable per iteration
  (Go 1.22 and later) and is kept for comparison only.
-/

namespace CloudKinds

/-! ## Data model -/

/-- A Go `error` value: its message (`Error()`), and whether `apierrors.IsNotFound`
holds of it. -/
structure GoError where
  message : String
  notFound : Bool
deriving DecidableEq

/-- The `schema.GroupVersionKind` of apimachinery. -/
structure GroupVersionKind where
  Group : String
  Version : String
  Kind : String
deriving DecidableEq

/-- The `types.NamespacedName` of apimachinery. -/
structure NamespacedName where
  Namespace : String
  Name : String
deriving DecidableEq

/-- The `reconcile.Request` used by the controller: it embeds a `NamespacedName` and a
`GroupVersionKind` (the code reads `request.NamespacedName`, `request.GroupVersionKind`,
`request.Kind` and calls `request.ToAPIVersionAndKind()`). -/
structure Request where
  NamespacedName : NamespacedName
  GroupVersionKind : GroupVersionKind
deriving DecidableEq

/-- The promoted field `request.Kind`. -/
def Request.Kind (request : Request) : String := request.GroupVersionKind.Kind

/-- The `v1alpha1.CloudProviderSpec`: the fields the controller reads. -/
structure CloudProviderSpec where
  Kinds : List String
  WebHook : String
deriving DecidableEq

/-- The `v1alpha1.CloudProvider`. -/
structure CloudProvider where
  Name : String
  Namespace : String
  Spec : CloudProviderSpec
deriving DecidableEq

/-- The zero value of `v1alpha1.CloudProvider`. -/
def CloudProvider.zero : CloudProvider :=
  { Name := "", Namespace := "", Spec := { Kinds := [], WebHook := "" } }

/-- The `reconcile.Result`; its zero value is `{Requeue: false, RequeueAfter: 0}`. -/
structure Result where
  Requeue : Bool := false
  RequeueAfter : Int := 0
deriving DecidableEq

/-- The constant `time.Second`, in nanoseconds. -/
def Second : Int := 1000000000

/-- The constant `http.StatusOK`. -/
def StatusOK : Int := 200

/-- Modelled from the spec: the action of `providers.ResourceEvent` (the package
`pkg/providers` is not among the sources): `Action ∈ {Created, Updated, Deleted}`. -/
inductive ResourceAction where
  | ResourceCreated
  | ResourceUpdated
  | ResourceDeleted
deriving DecidableEq

/-- Modelled from the spec: the wire name of an action, `"Created"`, `"Updated"` or
`"Deleted"`. -/
def ResourceAction.wire : ResourceAction → String
  | .ResourceCreated => "Created"
  | .ResourceUpdated => "Updated"
  | .ResourceDeleted => "Deleted"

/-- Modelled from the spec: `providers.ResourceReference`,
`{APIVersion, Kind, Namespace, Name}`. -/
structure ResourceReference where
  APIVersion : String
  Kind : String
  Namespace : String
  Name : String
deriving DecidableEq

/-- Modelled from the spec: `providers.ResourceEvent`, `{Action, Resource}`. -/
structure ResourceEvent where
  Action : ResourceAction
  Resource : ResourceReference
deriving DecidableEq

/-- What `http.DefaultClient.Post` hands back when it returns no error: the status code,
and what `ioutil.ReadAll(response.Body)` will give. -/
structure Response where
  StatusCode : Int
  Body : Except GoError String

/-- The calls to the outside world, in the order the code performs them. -/
inductive Effect where
  | list (ns : String)
  | get (key : NamespacedName) (gvk : GroupVersionKind)
  | marshal (evt : ResourceEvent)
  | post (url : String) (contentType : String) (body : String)
  | readAll
  | closeBody
deriving DecidableEq

/-- The outcomes of the external calls of `Reconcile`.  `Obj` is the type of the object
that `NewCloudKind` allocates and `r.Get` fills. -/
structure Env (Obj : Type) where
  /-- The call `r.List(ctx, &ListOptions{Namespace: ns}, list)`: the items left in the list
  and the error returned. -/
  clientList : String → List CloudProvider × Option GoError
  /-- The call `r.Get(ctx, key, obj)` on an object of the given kind. -/
  clientGet : NamespacedName → GroupVersionKind → Except GoError Obj
  /-- The call `json.Marshal(evt)`. -/
  jsonMarshal : ResourceEvent → Except GoError String
  /-- The call `http.DefaultClient.Post(url, contentType, body)`. -/
  httpPost : String → String → String → Except GoError Response

/-- What one call of `Reconcile` returns, with the trace of the calls it made. -/
structure Outcome where
  result : Result
  err : Option GoError
  trace : List Effect
deriving DecidableEq

/-! ## Library functions used by the code -/

/-- The `fmt.Errorf` of a message that is already formatted. -/
def Errorf (msg : String) : GoError := { message := msg, notFound := false }

/-- The `apierrors.IsNotFound`. -/
def IsNotFound (err : GoError) : Bool := err.notFound

/-- The `schema.GroupVersion.String` of apimachinery. -/
def GroupVersionString (group version : String) : String :=
  if group.length = 0 ∧ version.length = 0 then ""
  else if group.length > 0 then group ++ "/" ++ version
  else version

/-- The `schema.GroupVersionKind.ToAPIVersionAndKind` of apimachinery. -/
def GroupVersionKind.ToAPIVersionAndKind (gvk : GroupVersionKind) : String × String :=
  if gvk.Group.length = 0 ∧ gvk.Version.length = 0 ∧ gvk.Kind.length = 0 then ("", "")
  else (GroupVersionString gvk.Group gvk.Version, gvk.Kind)

/-- The promoted method `request.ToAPIVersionAndKind()`. -/
def Request.ToAPIVersionAndKind (request : Request) : String × String :=
  request.GroupVersionKind.ToAPIVersionAndKind

/-! ## The resolution loop of `Reconcile` (lines 104-111) -/

/-- The value of the pointer `provider`: `nil`, or the address of the range variable `p`
(the only address the loop ever stores). -/
inductive ProviderPtr where
  | nil
  | addrOfP
deriving DecidableEq

/-- The variables the loop reads and writes: the range variable `p` and the pointer
`provider`. -/
structure LoopState where
  p : CloudProvider
  provider : ProviderPtr
deriving DecidableEq

/-- The inner loop `for _, k := range p.Spec.Kinds { if k == request.Kind { provider = &p } }`:
there is no `break`, every kind is compared. -/
def scanKinds (kind : String) (kinds : List String) (provider : ProviderPtr) : ProviderPtr :=
  kinds.foldl (fun ptr k => if k = kind then ProviderPtr.addrOfP else ptr) provider

/-- One iteration of the outer loop: the next item is copied into the range variable `p`,
then the inner loop runs. -/
def scanProvider (kind : String) (st : LoopState) (item : CloudProvider) : LoopState :=
  { p := item, provider := scanKinds kind item.Spec.Kinds st.provider }

/-- The outer loop `for _, p := range availableProviders.Items`: there is no `break`, every
item is visited. -/
def scanProviders (kind : String) (items : List CloudProvider) (st : LoopState) : LoopState :=
  items.foldl (scanProvider kind) st

/-- The provider that `provider` designates after the loop: `none` when the pointer is
`nil`, else the value held by `p` at that moment (what `provider.Spec` reads). -/
def resolveProvider (kind : String) (items : List CloudProvider) : Option CloudProvider :=
  let st := scanProviders kind items { p := CloudProvider.zero, provider := ProviderPtr.nil }
  match st.provider with
  | ProviderPtr.nil => none
  | ProviderPtr.addrOfP => some st.p

/-- The same loop read with one range variable per iteration (Go 1.22 and later): `&p` then
designates the item of the iteration that stored it.  For comparison only. -/
def resolveProviderPerIteration (kind : String) (items : List CloudProvider) :
    Option CloudProvider :=
  items.foldl
    (fun provider item =>
      item.Spec.Kinds.foldl (fun ptr k => if k = kind then some item else ptr) provider)
    none

/-! ## `Reconcile` (lines 99-173) -/

/-- The event built at lines 133-142. -/
def buildEvent (request : Request) : ResourceEvent :=
  let (apiVersion, kind) := request.ToAPIVersionAndKind
  { Action := ResourceAction.ResourceCreated,
    Resource :=
      { APIVersion := apiVersion,
        Kind := kind,
        Namespace := request.NamespacedName.Namespace,
        Name := request.NamespacedName.Name } }

/-- The message of the error built at line 115. -/
def noProviderMessage (kind : String) : String :=
  "no provider registered for kind: " ++ kind

/-- The message of the error built at line 164: `"provider failed: %v %v %s"` applied to the
status code, the webhook URL and the body. -/
def providerFailedMessage (status : Int) (webHook : String) (body : String) : String :=
  "provider failed: " ++ toString status ++ " " ++ webHook ++ " " ++ body

/-- The method `ReconcileCloudKind.Reconcile`. -/
def Reconcile {Obj : Type} (env : Env Obj) (request : Request) : Outcome :=
  -- the error of `r.List` is stored in `err` and never read
  let availableProviders := (env.clientList request.NamespacedName.Namespace).1
  let t1 := [Effect.list request.NamespacedName.Namespace]
  match resolveProvider request.Kind availableProviders with
  | none =>
    { result := { Requeue := true, RequeueAfter := 30 * Second },
      err := some (Errorf (noProviderMessage request.Kind)),
      trace := t1 }
  | some provider =>
    let t2 := t1 ++ [Effect.get request.NamespacedName request.GroupVersionKind]
    match env.clientGet request.NamespacedName request.GroupVersionKind with
    | .error err =>
      if IsNotFound err then { result := {}, err := none, trace := t2 }
      else { result := { Requeue := true }, err := some err, trace := t2 }
    | .ok _obj =>
      let evt := buildEvent request
      let t3 := t2 ++ [Effect.marshal evt]
      match env.jsonMarshal evt with
      | .error err => { result := { Requeue := true }, err := some err, trace := t3 }
      | .ok bodyJson =>
        let t4 := t3 ++ [Effect.post provider.Spec.WebHook "application/json" bodyJson]
        match env.httpPost provider.Spec.WebHook "application/json" bodyJson with
        | .error err => { result := {}, err := some err, trace := t4 }
        | .ok response =>
          let t5 := t4 ++ [Effect.readAll, Effect.closeBody]
          let result :=
            match response.Body with
            | .ok data => data
            | .error _ => "could not read response body"
          if response.StatusCode ≠ StatusOK then
            { result := {},
              err := some (Errorf (providerFailedMessage response.StatusCode
                provider.Spec.WebHook result)),
              trace := t5 }
          else { result := {}, err := none, trace := t5 }


/-- Whether a provider advertises a kind: the kind occurs in its `Spec.Kinds`. -/
def advertises (kind : String) (p : CloudProvider) : Bool := decide (kind ∈ p.Spec.Kinds)

/-! ## The startup routine `add` (lines 55-86) -/

/-- The calls of the startup routine, in the order the code performs them. -/
inductive StartupEffect where
  | controllerNew
  | newForConfig
  | register (kind : String)
  | watch (gvk : GroupVersionKind)
deriving DecidableEq

/-- The outcomes of the external calls of `add`, and the package variable
`v1alpha1.SchemeGroupVersion` (declared outside the sources at hand). -/
structure StartupEnv where
  /-- The call `controller.New("cloudkinds-controller", mgr, ...)`. -/
  controllerNew : Option GoError
  /-- The call `apiextensionclient.NewForConfig(mgr.GetConfig())`. -/
  newForConfig : Option GoError
  /-- The call `RegisterCloudKind(crdClient, kind)`. -/
  RegisterCloudKind : String → Option GoError
  /-- The call `c.Watch(&source.Kind{Type: NewCloudKind(gvk)}, ...)`. -/
  Watch : GroupVersionKind → Option GoError
  /-- The group of `v1alpha1.SchemeGroupVersion`. -/
  schemeGroup : String
  /-- The version of `v1alpha1.SchemeGroupVersion`. -/
  schemeVersion : String

/-- The method `schema.GroupVersion.WithKind`. -/
def WithKind (group version kind : String) : GroupVersionKind :=
  { Group := group, Version := version, Kind := kind }

/-- The slice `kinds` of lines 69-72. -/
def configuredKinds (env : StartupEnv) : List GroupVersionKind :=
  [WithKind env.schemeGroup env.schemeVersion "CloudResource",
   WithKind env.schemeGroup env.schemeVersion "MySQL"]

/-- The loop of lines 73-83 over a list of kinds, from the trace reached so far: the
first failing call returns its error out of `add`. -/
def addKinds (env : StartupEnv) :
    List GroupVersionKind → List StartupEffect → Option GoError × List StartupEffect
  | [], t => (none, t)
  | kind :: rest, t =>
    match env.RegisterCloudKind kind.Kind with
    | some err => (some err, t ++ [StartupEffect.register kind.Kind])
    | none =>
      match env.Watch kind with
      | some err =>
        (some err, t ++ [StartupEffect.register kind.Kind, StartupEffect.watch kind])
      | none =>
        addKinds env rest (t ++ [StartupEffect.register kind.Kind, StartupEffect.watch kind])

/-- The function `add`: the error it returns and the calls it made. -/
def add (env : StartupEnv) : Option GoError × List StartupEffect :=
  match env.controllerNew with
  | some err => (some err, [StartupEffect.controllerNew])
  | none =>
    match env.newForConfig with
    | some err => (some err, [StartupEffect.controllerNew, StartupEffect.newForConfig])
    | none =>
      addKinds env (configuredKinds env)
        [StartupEffect.controllerNew, StartupEffect.newForConfig]

/-- The calls made for a kind whose registration and watch both succeed. -/
def startedCalls (kinds : List GroupVersionKind) : List StartupEffect :=
  kinds.flatMap (fun g => [StartupEffect.register g.Kind, StartupEffect.watch g])

/-- Whether the text `part` occurs in the text `whole`. -/
def occursIn (part whole : String) : Prop := part.data <:+: whole.data

/-! ## Concrete scenarios -/

/-- A provider of namespace `ns1` advertising `MySQL`. -/
def providerA : CloudProvider :=
  { Name := "a", Namespace := "ns1", Spec := { Kinds := ["MySQL"], WebHook := "http://a/hook" } }

/-- A provider of namespace `ns1` advertising `Redis` only. -/
def providerB : CloudProvider :=
  { Name := "b", Namespace := "ns1", Spec := { Kinds := ["Redis"], WebHook := "http://b/hook" } }

/-- A second provider of namespace `ns1` advertising `MySQL`. -/
def providerC : CloudProvider :=
  { Name := "c", Namespace := "ns1", Spec := { Kinds := ["MySQL"], WebHook := "http://c/hook" } }

/-- The provider of Scenario A. -/
def providerP : CloudProvider :=
  { Name := "p", Namespace := "ns1", Spec := { Kinds := ["MySQL"], WebHook := "http://p/hook" } }

/-- The request of Scenario A: `{ns1, MySQL, db1}` with version `v1alpha1`. -/
def requestA : Request :=
  { NamespacedName := { Namespace := "ns1", Name := "db1" },
    GroupVersionKind := { Group := "", Version := "v1alpha1", Kind := "MySQL" } }

/-- A stand-in encoder: the fields of the event, separated by `|`. -/
def flatMarshal (evt : ResourceEvent) : String :=
  evt.Action.wire ++ "|" ++ evt.Resource.APIVersion ++ "|" ++ evt.Resource.Kind ++ "|"
    ++ evt.Resource.Namespace ++ "|" ++ evt.Resource.Name

/-- An environment given by its provider listing, the outcome of the fetch and the answer
of every webhook; the encoder never fails. -/
def scenario (items : List CloudProvider) (listErr : Option GoError)
    (fetch : Except GoError Unit) (answer : Except GoError Response) : Env Unit :=
  { clientList := fun _ => (items, listErr),
    clientGet := fun _ _ => fetch,
    jsonMarshal := fun evt => .ok (flatMarshal evt),
    httpPost := fun _ _ _ => answer }

/-- A not-found error of the API server. -/
def errNotFound : GoError := { message := "mysqls db1 not found", notFound := true }

/-- Some other error of the API server. -/
def errTimeout : GoError := { message := "context deadline exceeded", notFound := false }

/-- A transport error of the HTTP client. -/
def errRefused : GoError := { message := "connection refused", notFound := false }

/-- A startup environment with group `cloudkinds.k8s.io` and version `v1alpha1`, given by the outcome
of each registration; every other call succeeds. -/
def startup (register : String → Option GoError) : StartupEnv :=
  { controllerNew := none,
    newForConfig := none,
    RegisterCloudKind := register,
    Watch := fun _ => none,
    schemeGroup := "cloudkinds.k8s.io",
    schemeVersion := "v1alpha1" }

/-- The registration of `CloudResource` fails, every other one succeeds. -/
def registerFailsFirst (kind : String) : Option GoError :=
  if kind = "CloudResource" then some errTimeout else none

/-! ## The resolution loop, characterised -/

theorem scanKinds_eq (kind : String) (kinds : List String) (ptr : ProviderPtr) :
    scanKinds kind kinds ptr = if kind ∈ kinds then ProviderPtr.addrOfP else ptr := by
  induction kinds generalizing ptr with
  | nil => simp [scanKinds]
  | cons k ks ih =>
    have step : scanKinds kind (k :: ks) ptr
        = scanKinds kind ks (if k = kind then ProviderPtr.addrOfP else ptr) := rfl
    rw [step, ih]
    by_cases hk : k = kind
    · subst hk; simp
    · have hne : ¬ kind = k := fun h => hk h.symm
      simp [hk, hne]

theorem scanProviders_provider (kind : String) (items : List CloudProvider) (st : LoopState) :
    (scanProviders kind items st).provider
      = if items.any (advertises kind) then ProviderPtr.addrOfP else st.provider := by
  induction items generalizing st with
  | nil => simp [scanProviders]
  | cons item rest ih =>
    have step : scanProviders kind (item :: rest) st
        = scanProviders kind rest (scanProvider kind st item) := rfl
    rw [step, ih]
    simp only [scanProvider, scanKinds_eq, List.any_cons, advertises, Bool.or_eq_true,
      decide_eq_true_eq]
    by_cases h1 : kind ∈ item.Spec.Kinds <;> by_cases h2 : (rest.any fun p => decide (kind ∈ p.Spec.Kinds)) = true <;> simp [h1, h2]

theorem scanProviders_p (kind : String) (items : List CloudProvider) (st : LoopState) :
    (scanProviders kind items st).p = items.getLast?.getD st.p := by
  induction items generalizing st with
  | nil => simp [scanProviders]
  | cons item rest ih =>
    have step : scanProviders kind (item :: rest) st
        = scanProviders kind rest (scanProvider kind st item) := rfl
    rw [step, ih]
    cases rest with
    | nil => simp [scanProvider]
    | cons r rs =>
      rw [List.getLast?_cons_cons]
      cases hl : (r :: rs).getLast? with
      | none => simp at hl
      | some v => simp

theorem resolveProvider_eq (kind : String) (items : List CloudProvider) :
    resolveProvider kind items
      = if items.any (advertises kind) then items.getLast? else none := by
  unfold resolveProvider
  simp only []
  have hp := scanProviders_provider kind items { p := CloudProvider.zero, provider := ProviderPtr.nil }
  have hq := scanProviders_p kind items { p := CloudProvider.zero, provider := ProviderPtr.nil }
  by_cases h : items.any (advertises kind) = true
  · rw [if_pos h] at hp
    rw [if_pos h]
    split
    · rename_i heq
      rw [hp] at heq
      cases heq
    · rw [hq]
      cases items with
      | nil => simp at h
      | cons a as =>
        cases hl : (a :: as).getLast? with
        | none => simp at hl
        | some v => simp
  · rw [if_neg h] at hp
    rw [if_neg h]
    split
    · rfl
    · rename_i heq
      rw [hp] at heq
      cases heq

theorem resolveProviderPerIteration_eq (kind : String) (items : List CloudProvider) :
    resolveProviderPerIteration kind items = (items.filter (advertises kind)).getLast? := by
  unfold resolveProviderPerIteration
  have inner : ∀ (item : CloudProvider) (ks : List String) (acc : Option CloudProvider),
      ks.foldl (fun ptr k => if k = kind then some item else ptr) acc
        = if kind ∈ ks then some item else acc := by
    intro item ks
    induction ks with
    | nil => intro acc; simp
    | cons k ks ih =>
      intro acc
      rw [List.foldl_cons, ih]
      by_cases hk : k = kind
      · subst hk; simp
      · have hne : ¬ kind = k := fun h => hk h.symm
        simp [hk, hne]
  simp only [inner]
  have outer : ∀ (l : List CloudProvider) (acc : Option CloudProvider),
      l.foldl (fun provider item => if kind ∈ item.Spec.Kinds then some item else provider) acc
        = ((l.filter (advertises kind)).getLast?).or acc := by
    intro l
    induction l using List.reverseRecOn with
    | nil => intro acc; simp
    | append_singleton l a ih =>
      intro acc
      rw [List.foldl_append, ih]
      by_cases ha : kind ∈ a.Spec.Kinds
      · simp [List.filter_append, advertises, ha]
      · simp [List.filter_append, advertises, ha]
  rw [outer]
  simp


/-! ## Provider resolution -/

/-- C1 (failing input): with the listing `[providerA, providerB]`, where `providerA` is the
only provider advertising `MySQL` and `providerB` follows it, the resolution loop of
`Reconcile` ends with `provider` designating `providerB`, and the webhook POST of the request
for `MySQL` goes to `http://b/hook`, not to `http://a/hook`. -/
theorem reconcile_sole_advertiser_not_last :
    ([providerA, providerB].filter (advertises requestA.Kind)) = [providerA]
    ∧ resolveProvider requestA.Kind [providerA, providerB] = some providerB
    ∧ (Reconcile (scenario [providerA, providerB] none (.ok ())
          (.ok { StatusCode := 200, Body := .ok "ok" })) requestA).trace
        = [Effect.list "ns1",
           Effect.get requestA.NamespacedName requestA.GroupVersionKind,
           Effect.marshal (buildEvent requestA),
           Effect.post "http://b/hook" "application/json" "Created|v1alpha1|MySQL|ns1|db1",
           Effect.readAll, Effect.closeBody] := by
  refine ⟨by decide, by decide, by decide⟩

/-- C2 (counterexample): with the listing `[providerA, providerC]`, both advertising
`MySQL`, the provider selected is `providerC`, not the first advertising one, `providerA`;
the POST goes to `http://c/hook`. -/
theorem reconcile_two_advertisers_not_first :
    2 ≤ ([providerA, providerC].filter (advertises requestA.Kind)).length
    ∧ ([providerA, providerC].filter (advertises requestA.Kind)).head? = some providerA
    ∧ resolveProvider requestA.Kind [providerA, providerC] = some providerC
    ∧ resolveProvider requestA.Kind [providerA, providerC]
        ≠ ([providerA, providerC].filter (advertises requestA.Kind)).head?
    ∧ Effect.post "http://c/hook" "application/json" "Created|v1alpha1|MySQL|ns1|db1"
        ∈ (Reconcile (scenario [providerA, providerC] none (.ok ())
            (.ok { StatusCode := 200, Body := .ok "ok" })) requestA).trace := by
  refine ⟨by decide, by decide, by decide, by decide, by decide⟩

/-- C2 (amended): when two or more providers of the listing advertise the kind, the loop
does not stop at the first one: a provider is selected, and whenever the last provider of the
listing advertises the kind, the provider selected is the last advertising provider in
enumeration order. -/
theorem resolveProvider_last_advertiser (kind : String) (items : List CloudProvider)
    (hmany : 2 ≤ (items.filter (advertises kind)).length) :
    (resolveProvider kind items).isSome = true
    ∧ ∀ q, items.getLast? = some q → advertises kind q = true →
        resolveProvider kind items = (items.filter (advertises kind)).getLast? := by
  have hany : items.any (advertises kind) = true := by
    cases hf : items.filter (advertises kind) with
    | nil => rw [hf] at hmany; simp at hmany
    | cons a as =>
      have ha : a ∈ items.filter (advertises kind) := by rw [hf]; simp
      rw [List.mem_filter] at ha
      exact List.any_eq_true.mpr ⟨a, ha.1, ha.2⟩
  rw [resolveProvider_eq, if_pos hany]
  constructor
  · cases items with
    | nil => simp at hany
    | cons a as =>
      cases hl : (a :: as).getLast? with
      | none => simp at hl
      | some v => rfl
  · intro q hq hadv
    obtain ⟨front, rfl⟩ : ∃ front, items = front ++ [q] := by
      rcases List.getLast?_eq_some_iff.mp hq with ⟨front, h⟩
      exact ⟨front, h⟩
    simp [List.filter_append, hadv]

/-- C2 (witness): the listing `[providerA, providerC]` for `MySQL`. -/
theorem resolveProvider_last_advertiser_witness :
    2 ≤ ([providerA, providerC].filter (advertises "MySQL")).length
    ∧ (resolveProvider "MySQL" [providerA, providerC]).isSome = true
    ∧ resolveProvider "MySQL" [providerA, providerC] = some providerC :=
  ⟨by decide,
   (resolveProvider_last_advertiser "MySQL" [providerA, providerC] (by decide)).1,
   ((resolveProvider_last_advertiser "MySQL" [providerA, providerC] (by decide)).2
      providerC (by decide) (by decide)).trans (by decide)⟩


/-! ## Outcome of `Reconcile` -/

theorem resolveProvider_none_of_no_advertiser (kind : String) (items : List CloudProvider)
    (hnone : ∀ p ∈ items, kind ∉ p.Spec.Kinds) : resolveProvider kind items = none := by
  rw [resolveProvider_eq]
  have hany : ¬ items.any (advertises kind) = true := by
    intro h
    rcases List.any_eq_true.mp h with ⟨p, hp, hadv⟩
    exact hnone p hp (by simpa [advertises] using hadv)
  rw [if_neg hany]

/-- C3: when no provider of the listing advertises the kind of the request (the listing may
be empty), `Reconcile` returns `{Requeue: true, RequeueAfter: 30 s}` and a non-nil error whose
message is `"no provider registered for kind: "` followed by the kind, whatever the fetch of
the target object would give; the listing is the only call made. -/
theorem reconcile_no_provider {Obj : Type} (env : Env Obj) (request : Request)
    (hnone : ∀ p ∈ (env.clientList request.NamespacedName.Namespace).1,
      request.Kind ∉ p.Spec.Kinds) :
    (Reconcile env request).result = { Requeue := true, RequeueAfter := 30000000000 }
    ∧ (∃ e, (Reconcile env request).err = some e
        ∧ e.message = "no provider registered for kind: " ++ request.Kind)
    ∧ (Reconcile env request).trace = [Effect.list request.NamespacedName.Namespace] := by
  have hres := resolveProvider_none_of_no_advertiser request.Kind _ hnone
  simp [Reconcile, hres, Second, Errorf, noProviderMessage]

/-- C3 (witness): Scenario D, in namespace `ns1` only `providerB` is listed and it does not
advertise `MySQL`, while the target object exists. -/
theorem reconcile_no_provider_witness :
    (∀ p ∈ ((scenario [providerB] none (.ok ())
        (.ok { StatusCode := 200, Body := .ok "ok" })).clientList
          requestA.NamespacedName.Namespace).1, requestA.Kind ∉ p.Spec.Kinds)
    ∧ (Reconcile (scenario [providerB] none (.ok ())
        (.ok { StatusCode := 200, Body := .ok "ok" })) requestA).result
        = { Requeue := true, RequeueAfter := 30000000000 }
    ∧ (∃ e, (Reconcile (scenario [providerB] none (.ok ())
        (.ok { StatusCode := 200, Body := .ok "ok" })) requestA).err = some e
        ∧ e.message = "no provider registered for kind: MySQL") :=
  ⟨by decide,
   (reconcile_no_provider (scenario [providerB] none (.ok ())
      (.ok { StatusCode := 200, Body := .ok "ok" })) requestA (by decide)).1,
   (reconcile_no_provider (scenario [providerB] none (.ok ())
      (.ok { StatusCode := 200, Body := .ok "ok" })) requestA (by decide)).2.1⟩

/-- C4: when a provider is resolved and the fetch of the target object fails with a
not-found error, `Reconcile` returns `{Requeue: false, RequeueAfter: 0}` and a nil error, and
its calls are the listing and the fetch only: no webhook POST is issued. -/
theorem reconcile_object_not_found {Obj : Type} (env : Env Obj) (request : Request)
    (provider : CloudProvider) (fetchErr : GoError)
    (hprov : resolveProvider request.Kind
      (env.clientList request.NamespacedName.Namespace).1 = some provider)
    (hget : env.clientGet request.NamespacedName request.GroupVersionKind = .error fetchErr)
    (hnf : IsNotFound fetchErr = true) :
    (Reconcile env request).result = { Requeue := false, RequeueAfter := 0 }
    ∧ (Reconcile env request).err = none
    ∧ (Reconcile env request).trace
        = [Effect.list request.NamespacedName.Namespace,
           Effect.get request.NamespacedName request.GroupVersionKind]
    ∧ ∀ url contentType body,
        Effect.post url contentType body ∉ (Reconcile env request).trace := by
  simp [Reconcile, hprov, hget, hnf]

/-- C4 (witness): Scenario B, the provider of Scenario A is listed and the target object has
been deleted. -/
theorem reconcile_object_not_found_witness :
    IsNotFound errNotFound = true
    ∧ (Reconcile (scenario [providerP] none (.error errNotFound)
        (.ok { StatusCode := 200, Body := .ok "ok" })) requestA).result
        = { Requeue := false, RequeueAfter := 0 }
    ∧ (Reconcile (scenario [providerP] none (.error errNotFound)
        (.ok { StatusCode := 200, Body := .ok "ok" })) requestA).err = none :=
  ⟨by decide,
   (reconcile_object_not_found (scenario [providerP] none (.error errNotFound)
      (.ok { StatusCode := 200, Body := .ok "ok" })) requestA providerP errNotFound
      (by decide) rfl (by decide)).1,
   (reconcile_object_not_found (scenario [providerP] none (.error errNotFound)
      (.ok { StatusCode := 200, Body := .ok "ok" })) requestA providerP errNotFound
      (by decide) rfl (by decide)).2.1⟩

/-- C5: when a provider is resolved and the fetch of the target object fails with an error
that is not a not-found error, `Reconcile` returns `{Requeue: true, RequeueAfter: 0}` and that
same error, and its calls are the listing and the fetch only: no webhook POST is issued. -/
theorem reconcile_fetch_error {Obj : Type} (env : Env Obj) (request : Request)
    (provider : CloudProvider) (fetchErr : GoError)
    (hprov : resolveProvider request.Kind
      (env.clientList request.NamespacedName.Namespace).1 = some provider)
    (hget : env.clientGet request.NamespacedName request.GroupVersionKind = .error fetchErr)
    (hnf : IsNotFound fetchErr = false) :
    (Reconcile env request).result = { Requeue := true, RequeueAfter := 0 }
    ∧ (Reconcile env request).err = some fetchErr
    ∧ (Reconcile env request).trace
        = [Effect.list request.NamespacedName.Namespace,
           Effect.get request.NamespacedName request.GroupVersionKind]
    ∧ ∀ url contentType body,
        Effect.post url contentType body ∉ (Reconcile env request).trace := by
  simp [Reconcile, hprov, hget, hnf]

/-- C5 (witness): the provider of Scenario A is listed and the fetch times out. -/
theorem reconcile_fetch_error_witness :
    IsNotFound errTimeout = false
    ∧ (Reconcile (scenario [providerP] none (.error errTimeout)
        (.ok { StatusCode := 200, Body := .ok "ok" })) requestA).result
        = { Requeue := true, RequeueAfter := 0 }
    ∧ (Reconcile (scenario [providerP] none (.error errTimeout)
        (.ok { StatusCode := 200, Body := .ok "ok" })) requestA).err = some errTimeout :=
  ⟨by decide,
   (reconcile_fetch_error (scenario [providerP] none (.error errTimeout)
      (.ok { StatusCode := 200, Body := .ok "ok" })) requestA providerP errTimeout
      (by decide) rfl (by decide)).1,
   (reconcile_fetch_error (scenario [providerP] none (.error errTimeout)
      (.ok { StatusCode := 200, Body := .ok "ok" })) requestA providerP errTimeout
      (by decide) rfl (by decide)).2.1⟩


/-- C6: when the request reaches dispatch (a provider is resolved, the target object is
fetched, the event is serialized), the result is `{Requeue: false, RequeueAfter: 0}` and the
error returned is nil exactly when the POST returned a response whose status code is 200.  A
transport failure and every other status therefore give a non-nil error, and the outcome of
reading the body plays no part in a status-200 response being a success. -/
theorem reconcile_dispatch_outcome {Obj : Type} (env : Env Obj) (request : Request)
    (provider : CloudProvider) (obj : Obj) (bodyJson : String)
    (hprov : resolveProvider request.Kind
      (env.clientList request.NamespacedName.Namespace).1 = some provider)
    (hget : env.clientGet request.NamespacedName request.GroupVersionKind = .ok obj)
    (hjson : env.jsonMarshal (buildEvent request) = .ok bodyJson) :
    (Reconcile env request).result.Requeue = false
    ∧ (Reconcile env request).result.RequeueAfter = 0
    ∧ ((Reconcile env request).err = none ↔
        ∃ response, env.httpPost provider.Spec.WebHook "application/json" bodyJson
            = .ok response ∧ response.StatusCode = 200)
    ∧ (∀ transportErr, env.httpPost provider.Spec.WebHook "application/json" bodyJson
          = .error transportErr → (Reconcile env request).err = some transportErr)
    ∧ (∀ readOutcome, env.httpPost provider.Spec.WebHook "application/json" bodyJson
          = .ok { StatusCode := 200, Body := readOutcome } →
          (Reconcile env request).err = none) := by
  cases hpost : env.httpPost provider.Spec.WebHook "application/json" bodyJson with
  | error e => simp [Reconcile, hprov, hget, hjson, hpost]
  | ok response =>
    by_cases hs : response.StatusCode = 200
    · simp [Reconcile, hprov, hget, hjson, hpost, hs, StatusOK]
    · simp [Reconcile, hprov, hget, hjson, hpost, hs, StatusOK]
      intro readOutcome hr
      rw [hr] at hs
      exact absurd rfl hs

/-- C6 (witness): Scenario A answered with status 200 and a body that cannot be read. -/
theorem reconcile_dispatch_outcome_witness :
    (Reconcile (scenario [providerP] none (.ok ())
        (.ok { StatusCode := 200, Body := .error errRefused })) requestA).result.Requeue = false
    ∧ (Reconcile (scenario [providerP] none (.ok ())
        (.ok { StatusCode := 200, Body := .error errRefused })) requestA).err = none :=
  ⟨(reconcile_dispatch_outcome (scenario [providerP] none (.ok ())
      (.ok { StatusCode := 200, Body := .error errRefused })) requestA providerP ()
      "Created|v1alpha1|MySQL|ns1|db1" (by decide) rfl rfl).1,
   (reconcile_dispatch_outcome (scenario [providerP] none (.ok ())
      (.ok { StatusCode := 200, Body := .error errRefused })) requestA providerP ()
      "Created|v1alpha1|MySQL|ns1|db1" (by decide) rfl rfl).2.2.2.2
      (.error errRefused) rfl⟩

/-- C7: when the request reaches dispatch and the POST returns a response of status `s`
other than 200 whose body reads as `b`, `Reconcile` returns `Requeue = false` and a non-nil
error whose message contains the decimal rendering of `s` and contains `b`. -/
theorem reconcile_provider_rejected {Obj : Type} (env : Env Obj) (request : Request)
    (provider : CloudProvider) (obj : Obj) (bodyJson : String) (s : Int) (b : String)
    (hprov : resolveProvider request.Kind
      (env.clientList request.NamespacedName.Namespace).1 = some provider)
    (hget : env.clientGet request.NamespacedName request.GroupVersionKind = .ok obj)
    (hjson : env.jsonMarshal (buildEvent request) = .ok bodyJson)
    (hpost : env.httpPost provider.Spec.WebHook "application/json" bodyJson
      = .ok { StatusCode := s, Body := .ok b })
    (hs : s ≠ 200) :
    (Reconcile env request).result.Requeue = false
    ∧ ∃ e, (Reconcile env request).err = some e
        ∧ occursIn (toString s) e.message ∧ occursIn b e.message := by
  have herr : (Reconcile env request).err
      = some (Errorf (providerFailedMessage s provider.Spec.WebHook b)) := by
    simp [Reconcile, hprov, hget, hjson, hpost, hs, StatusOK]
  refine ⟨by simp [Reconcile, hprov, hget, hjson, hpost, hs, StatusOK], _, herr, ?_, ?_⟩
  · refine ⟨"provider failed: ".data, (" " ++ provider.Spec.WebHook ++ " " ++ b).data, ?_⟩
    simp [Errorf, providerFailedMessage, String.data_append]
  · refine ⟨("provider failed: " ++ toString s ++ " " ++ provider.Spec.WebHook ++ " ").data,
      [], ?_⟩
    simp [Errorf, providerFailedMessage, String.data_append]

/-- C7 (witness): Scenario C, the provider answers 503 with the body `unavailable`; the
error message contains `503` and `unavailable`. -/
theorem reconcile_provider_rejected_witness :
    (503 : Int) ≠ 200
    ∧ (Reconcile (scenario [providerP] none (.ok ())
        (.ok { StatusCode := 503, Body := .ok "unavailable" })) requestA).result.Requeue = false
    ∧ ∃ e, (Reconcile (scenario [providerP] none (.ok ())
        (.ok { StatusCode := 503, Body := .ok "unavailable" })) requestA).err = some e
        ∧ occursIn "503" e.message ∧ occursIn "unavailable" e.message :=
  ⟨by decide,
   (reconcile_provider_rejected (scenario [providerP] none (.ok ())
      (.ok { StatusCode := 503, Body := .ok "unavailable" })) requestA providerP ()
      "Created|v1alpha1|MySQL|ns1|db1" 503 "unavailable"
      (by decide) rfl rfl rfl (by decide)).1,
   (reconcile_provider_rejected (scenario [providerP] none (.ok ())
      (.ok { StatusCode := 503, Body := .ok "unavailable" })) requestA providerP ()
      "Created|v1alpha1|MySQL|ns1|db1" 503 "unavailable"
      (by decide) rfl rfl rfl (by decide)).2⟩


theorem eq_empty_of_length_zero (s : String) (h : s.length = 0) : s = "" := by
  cases s with
  | mk d =>
    have hd : d = [] := by simpa [String.length] using h
    subst hd
    rfl

theorem buildEvent_eq (request : Request) :
    buildEvent request
      = { Action := ResourceAction.ResourceCreated,
          Resource :=
            { APIVersion := GroupVersionString request.GroupVersionKind.Group
                request.GroupVersionKind.Version,
              Kind := request.Kind,
              Namespace := request.NamespacedName.Namespace,
              Name := request.NamespacedName.Name } } := by
  unfold buildEvent Request.ToAPIVersionAndKind GroupVersionKind.ToAPIVersionAndKind
  by_cases hempty : request.GroupVersionKind.Group.length = 0
      ∧ request.GroupVersionKind.Version.length = 0
      ∧ request.GroupVersionKind.Kind.length = 0
  · rw [if_pos hempty]
    have hk := eq_empty_of_length_zero _ hempty.2.2
    simp [GroupVersionString, hempty.1, hempty.2.1, Request.Kind, hk]
  · rw [if_neg hempty]
    rfl

/-- C8: when a provider is resolved and the target object is fetched, `Reconcile` builds and
serializes exactly one event; its action is `Created` and its resource carries the API
version, kind, namespace and name of the request, whatever the fetched object holds; the
event is dispatched: as soon as its serialization succeeds, that serialization is POSTed to
the webhook of the resolved provider with content type `application/json`; and every POST
issued is that one (same URL, same content type, body the serialization of the event). -/
theorem reconcile_event_of_request {Obj : Type} (env : Env Obj) (request : Request)
    (provider : CloudProvider) (obj : Obj)
    (hprov : resolveProvider request.Kind
      (env.clientList request.NamespacedName.Namespace).1 = some provider)
    (hget : env.clientGet request.NamespacedName request.GroupVersionKind = .ok obj) :
    ∃ evt, Effect.marshal evt ∈ (Reconcile env request).trace
      ∧ (∀ other, Effect.marshal other ∈ (Reconcile env request).trace → other = evt)
      ∧ evt.Action = ResourceAction.ResourceCreated
      ∧ evt.Resource.APIVersion = request.ToAPIVersionAndKind.1
      ∧ evt.Resource.APIVersion
          = GroupVersionString request.GroupVersionKind.Group request.GroupVersionKind.Version
      ∧ evt.Resource.Kind = request.Kind
      ∧ evt.Resource.Namespace = request.NamespacedName.Namespace
      ∧ evt.Resource.Name = request.NamespacedName.Name
      ∧ (∀ url contentType body,
          Effect.post url contentType body ∈ (Reconcile env request).trace →
            env.jsonMarshal evt = .ok body)
      ∧ (∀ body, env.jsonMarshal evt = .ok body →
          Effect.post provider.Spec.WebHook "application/json" body
            ∈ (Reconcile env request).trace)
      ∧ (∀ url contentType body,
          Effect.post url contentType body ∈ (Reconcile env request).trace →
            url = provider.Spec.WebHook ∧ contentType = "application/json") := by
  refine ⟨buildEvent request, ?_, ?_, ?_, ?_, ?_, ?_, ?_, ?_, ?_, ?_, ?_⟩
  · cases hjson : env.jsonMarshal (buildEvent request) with
    | error e => simp [Reconcile, hprov, hget, hjson]
    | ok bodyJson =>
      cases hpost : env.httpPost provider.Spec.WebHook "application/json" bodyJson with
      | error e => simp [Reconcile, hprov, hget, hjson, hpost]
      | ok response =>
        by_cases hs : response.StatusCode = StatusOK <;>
          simp [Reconcile, hprov, hget, hjson, hpost, hs]
  · intro other
    cases hjson : env.jsonMarshal (buildEvent request) with
    | error e => simp [Reconcile, hprov, hget, hjson]
    | ok bodyJson =>
      cases hpost : env.httpPost provider.Spec.WebHook "application/json" bodyJson with
      | error e => simp [Reconcile, hprov, hget, hjson, hpost]
      | ok response =>
        by_cases hs : response.StatusCode = StatusOK <;>
          simp [Reconcile, hprov, hget, hjson, hpost, hs]
  · rfl
  · rfl
  · rw [buildEvent_eq]
  · rw [buildEvent_eq]
  · rfl
  · rfl
  · intro url contentType body
    cases hjson : env.jsonMarshal (buildEvent request) with
    | error e => simp [Reconcile, hprov, hget, hjson]
    | ok bodyJson =>
      cases hpost : env.httpPost provider.Spec.WebHook "application/json" bodyJson with
      | error e =>
        simp [Reconcile, hprov, hget, hjson, hpost]
        intro _ _ hb
        exact hb.symm
      | ok response =>
        by_cases hs : response.StatusCode = StatusOK
        · simp [Reconcile, hprov, hget, hjson, hpost, hs]
          intro _ _ hb
          exact hb.symm
        · simp [Reconcile, hprov, hget, hjson, hpost, hs]
          intro _ _ hb
          exact hb.symm
  · intro body hjson
    cases hpost : env.httpPost provider.Spec.WebHook "application/json" body with
    | error e => simp [Reconcile, hprov, hget, hjson, hpost]
    | ok response =>
      by_cases hs : response.StatusCode = StatusOK <;>
        simp [Reconcile, hprov, hget, hjson, hpost, hs]
  · intro url contentType body
    cases hjson : env.jsonMarshal (buildEvent request) with
    | error e => simp [Reconcile, hprov, hget, hjson]
    | ok bodyJson =>
      cases hpost : env.httpPost provider.Spec.WebHook "application/json" bodyJson with
      | error e =>
        simp [Reconcile, hprov, hget, hjson, hpost]
        intro hu hc _
        exact ⟨hu, hc⟩
      | ok response =>
        by_cases hs : response.StatusCode = StatusOK
        · simp [Reconcile, hprov, hget, hjson, hpost, hs]
          intro hu hc _
          exact ⟨hu, hc⟩
        · simp [Reconcile, hprov, hget, hjson, hpost, hs]
          intro hu hc _
          exact ⟨hu, hc⟩

/-- C8 (witness): Scenario A, the request `{ns1, MySQL, db1}` of version `v1alpha1` gives
the action `Created` and the resource `v1alpha1`, `MySQL`, `ns1`, `db1`, and the
serialization of that event is POSTed to `http://p/hook`. -/
theorem reconcile_event_of_request_witness :
    ∃ evt, Effect.marshal evt ∈ (Reconcile (scenario [providerP] none (.ok ())
        (.ok { StatusCode := 200, Body := .ok "ok" })) requestA).trace
      ∧ evt.Action.wire = "Created"
      ∧ evt.Resource
          = { APIVersion := "v1alpha1", Kind := "MySQL", Namespace := "ns1", Name := "db1" }
      ∧ Effect.post "http://p/hook" "application/json" (flatMarshal evt)
          ∈ (Reconcile (scenario [providerP] none (.ok ())
              (.ok { StatusCode := 200, Body := .ok "ok" })) requestA).trace := by
  obtain ⟨evt, hmem, _, hact, hver, _, hkind, hns, hname, _, hsent, _⟩ :=
    reconcile_event_of_request (scenario [providerP] none (.ok ())
      (.ok { StatusCode := 200, Body := .ok "ok" })) requestA providerP () (by decide) rfl
  refine ⟨evt, hmem, by rw [hact]; rfl, ?_, hsent (flatMarshal evt) rfl⟩
  cases evt with
  | mk action resource =>
    cases resource with
    | mk v k n m =>
      simp only at hver hkind hns hname
      subst hver hkind hns hname
      show ResourceReference.mk requestA.ToAPIVersionAndKind.1 requestA.Kind
          requestA.NamespacedName.Namespace requestA.NamespacedName.Name
        = { APIVersion := "v1alpha1", Kind := "MySQL", Namespace := "ns1", Name := "db1" }
      decide

/-- C10: when the listing of the providers fails, returning an error and leaving the list
empty, `Reconcile` returns `{Requeue: true, RequeueAfter: 30 s}` and the error
`"no provider registered for kind: "` followed by the kind, which does not depend on the
listing error; the listing is the only call made (no fetch, no POST); and the whole outcome
is the one obtained when the listing succeeds with no provider. -/
theorem reconcile_list_error {Obj : Type} (env : Env Obj) (request : Request)
    (listErr : GoError)
    (hlist : env.clientList request.NamespacedName.Namespace = ([], some listErr)) :
    Reconcile env request
      = { result := { Requeue := true, RequeueAfter := 30000000000 },
          err := some (Errorf ("no provider registered for kind: " ++ request.Kind)),
          trace := [Effect.list request.NamespacedName.Namespace] }
    ∧ Reconcile env request
        = Reconcile { env with clientList := fun _ => ([], none) } request
    ∧ (∀ key gvk, Effect.get key gvk ∉ (Reconcile env request).trace)
    ∧ (∀ url contentType body,
        Effect.post url contentType body ∉ (Reconcile env request).trace) := by
  have hres : resolveProvider request.Kind [] = none := rfl
  simp [Reconcile, hlist, hres, Second, noProviderMessage]

/-- C10 (witness): the listing of `ns1` times out. -/
theorem reconcile_list_error_witness :
    Reconcile (scenario [] (some errTimeout) (.ok ())
        (.ok { StatusCode := 200, Body := .ok "ok" })) requestA
      = { result := { Requeue := true, RequeueAfter := 30000000000 },
          err := some (Errorf "no provider registered for kind: MySQL"),
          trace := [Effect.list "ns1"] } :=
  (reconcile_list_error (scenario [] (some errTimeout) (.ok ())
    (.ok { StatusCode := 200, Body := .ok "ok" })) requestA errTimeout rfl).1

/-! ## Startup -/

/-- C9 (counterexample): when the registration of `CloudResource`, the first configured
kind, fails, `add` returns that error after three calls; `MySQL`, whose registration and
watch would both succeed, is neither registered nor watched. -/
theorem add_failure_skips_later_kinds :
    (startup registerFailsFirst).RegisterCloudKind "MySQL" = none
    ∧ (startup registerFailsFirst).Watch (WithKind "cloudkinds.k8s.io" "v1alpha1" "MySQL") = none
    ∧ WithKind "cloudkinds.k8s.io" "v1alpha1" "MySQL"
        ∈ configuredKinds (startup registerFailsFirst)
    ∧ add (startup registerFailsFirst)
        = (some errTimeout,
           [StartupEffect.controllerNew, StartupEffect.newForConfig,
            StartupEffect.register "CloudResource"])
    ∧ StartupEffect.register "MySQL" ∉ (add (startup registerFailsFirst)).2
    ∧ StartupEffect.watch (WithKind "cloudkinds.k8s.io" "v1alpha1" "MySQL")
        ∉ (add (startup registerFailsFirst)).2 := by
  refine ⟨by decide, by decide, by decide, by decide, by decide, by decide⟩

theorem addKinds_all_started (env : StartupEnv) (pre rest : List GroupVersionKind)
    (t : List StartupEffect)
    (hpre : ∀ g ∈ pre, env.RegisterCloudKind g.Kind = none ∧ env.Watch g = none) :
    addKinds env (pre ++ rest) t = addKinds env rest (t ++ startedCalls pre) := by
  induction pre generalizing t with
  | nil => simp [startedCalls]
  | cons g gs ih =>
    have hg := hpre g (by simp)
    have hgs : ∀ x ∈ gs, env.RegisterCloudKind x.Kind = none ∧ env.Watch x = none :=
      fun x hx => hpre x (by simp [hx])
    have step : addKinds env (g :: (gs ++ rest)) t
        = addKinds env (gs ++ rest)
            (t ++ [StartupEffect.register g.Kind, StartupEffect.watch g]) := by
      simp [addKinds, hg.1, hg.2]
    rw [List.cons_append, step, ih _ hgs]
    simp [startedCalls]

/-- C9 (amended): a failure to register one kind stops the startup routine.  When the
kinds before the failing one were registered and watched with success, the loop of `add`
returns the registration error at once, having made the calls for those earlier kinds and
the failed registration only; so does `add` on its configured list, where every watch
established is for an earlier kind and no registration is attempted for a later one. -/
theorem add_stops_at_failed_registration (env : StartupEnv)
    (pre post : List GroupVersionKind) (k : GroupVersionKind) (err : GoError)
    (hpre : ∀ g ∈ pre, env.RegisterCloudKind g.Kind = none ∧ env.Watch g = none)
    (hk : env.RegisterCloudKind k.Kind = some err) :
    (∀ t, addKinds env (pre ++ k :: post) t
        = (some err, t ++ startedCalls pre ++ [StartupEffect.register k.Kind]))
    ∧ (env.controllerNew = none → env.newForConfig = none →
        configuredKinds env = pre ++ k :: post →
          add env = (some err,
              [StartupEffect.controllerNew, StartupEffect.newForConfig] ++ startedCalls pre
                ++ [StartupEffect.register k.Kind])
          ∧ (∀ g, StartupEffect.watch g ∈ (add env).2 → g ∈ pre)
          ∧ (∀ name, StartupEffect.register name ∈ (add env).2 →
              name = k.Kind ∨ ∃ g ∈ pre, g.Kind = name)) := by
  have hloop : ∀ t, addKinds env (pre ++ k :: post) t
      = (some err, t ++ startedCalls pre ++ [StartupEffect.register k.Kind]) := by
    intro t
    rw [addKinds_all_started env pre (k :: post) t hpre]
    simp [addKinds, hk]
  refine ⟨hloop, ?_⟩
  intro hc hn hkinds
  have hadd : add env = (some err,
      [StartupEffect.controllerNew, StartupEffect.newForConfig] ++ startedCalls pre
        ++ [StartupEffect.register k.Kind]) := by
    unfold add
    rw [hc, hn]
    simp only []
    rw [hkinds, hloop]
  refine ⟨hadd, ?_, ?_⟩
  · intro g hg
    rw [hadd] at hg
    simpa [startedCalls] using hg
  · intro name hname
    rw [hadd] at hname
    simp [startedCalls] at hname
    rcases hname with ⟨x, hx, hxn⟩ | h
    · exact Or.inr ⟨x, hx, hxn.symm⟩
    · exact Or.inl h

/-- C9 (witness): the registration of `CloudResource` fails; nothing is done for `MySQL`. -/
theorem add_stops_at_failed_registration_witness :
    (startup registerFailsFirst).RegisterCloudKind "CloudResource" = some errTimeout
    ∧ add (startup registerFailsFirst)
        = (some errTimeout,
           [StartupEffect.controllerNew, StartupEffect.newForConfig,
            StartupEffect.register "CloudResource"]) :=
  ⟨by decide,
   ((add_stops_at_failed_registration (startup registerFailsFirst) []
      [WithKind "cloudkinds.k8s.io" "v1alpha1" "MySQL"]
      (WithKind "cloudkinds.k8s.io" "v1alpha1" "CloudResource") errTimeout
      (by simp) (by decide)).2 rfl rfl rfl).1⟩

end CloudKinds
